import Mathlib

/-!
Shallow embedding of the "Stuff Happens" card game server core
(server/dao-cards.mjs, server/dao-games.mjs, server/routes.mjs).

The SQLite database is modelled as an explicit record of rows (`DB`);
each SQL statement is translated to the corresponding pure list
operation.  The `ORDER BY RANDOM()` draw of `getRandomCards` is
parametrised by the shuffled ordering of the cards table
(`shuffledCards`); theorems that need it assume this list is a
permutation of the catalog.  A SQL `ORDER BY` clause is modelled by the
insertion sort `orderBy`.  Timestamps (ISO-8601 strings in the source)
are modelled as naturals: only their relative order is ever used.
Numbers that the route layer checks with `isNaN` are modelled as
`Option` values (`none` is `NaN`), and `Array.isArray(playerHand)` maps
to an `Option (List HandCard)`.  Database write faults (for the
transaction in `startGame`) are modelled by an external fault oracle
`failAt` giving the index of the first failing write, `none` meaning no
fault.
-/

namespace StuffGame

/-- Row of the `cards` table (id, name, image, bad_luck_index).  The
`bad_luck_index` is a REAL in the schema but only ever compared, so an
integer model preserves all behaviour used by the core. -/
structure Card where
  id : Nat
  name : String
  image : String
  bad_luck_index : Int
  deriving DecidableEq

/-- Row of the `games` table.  `end_time = none` models the empty-string
placeholder written at game start; `outcome` is the literal string
column (empty string is the in-progress sentinel). -/
structure Game where
  id : Nat
  user_id : Nat
  start_time : Nat
  end_time : Option Nat
  outcome : String
  cards_collected : Nat
  deriving DecidableEq

/-- Row of the `game_cards` table.  `is_correct_guess` stores the
1/0/NULL column as `some true / some false / none`. -/
structure GameCardEvent where
  game_id : Nat
  card_id : Nat
  status : String
  round : Option Nat
  guess_time : Option Nat
  is_correct_guess : Option Bool
  deriving DecidableEq

/-- The persistent state: the three tables the game core touches, plus
the AUTOINCREMENT counter for `games.id`. -/
structure DB where
  cards : List Card
  games : List Game
  game_cards : List GameCardEvent
  nextGameId : Nat
  deriving DecidableEq

/-- Insertion into a sorted list, the auxiliary step of `orderBy`. -/
def orderedInsert (le : α → α → Bool) (a : α) : List α → List α
  | [] => [a]
  | b :: t => if le a b then a :: b :: t else b :: orderedInsert le a t

/-- Model of a SQL `ORDER BY` clause: sort by the boolean comparison
`le` (insertion sort, hence executable by kernel reduction). -/
def orderBy (le : α → α → Bool) : List α → List α
  | [] => []
  | a :: t => orderedInsert le a (orderBy le t)

/-- dao-cards.mjs `getRandomCards(db, limit, excludeCardIds)`.
`shuffledCards` is the `ORDER BY RANDOM()` ordering of the `cards`
table chosen by the storage engine.  The source builds the `NOT IN`
clause only when the exclusion list is non-empty, hence the branch. -/
def getRandomCards (shuffledCards : List Card) (limit : Nat)
    (excludeCardIds : List Nat) : List Card :=
  if excludeCardIds.isEmpty then
    shuffledCards.take limit
  else
    (shuffledCards.filter (fun c => !(excludeCardIds.contains c.id))).take limit

/-- dao-cards.mjs `getCardById(db, cardId)`. -/
def getCardById (db : DB) (cardId : Nat) : Option Card :=
  db.cards.find? (fun c => c.id == cardId)

/-- The `initial`-status event row written for each starting card. -/
def initialEvent (gameId : Nat) (c : Card) : GameCardEvent :=
  { game_id := gameId, card_id := c.id, status := "initial",
    round := none, guess_time := none, is_correct_guess := none }

/-- The loop of dao-games.mjs `startGame` inserting one `initial` event
row per starting card.  `opIdx` numbers the write statements of the
transaction so the fault oracle `failAt` can hit any of them. -/
def insertInitialCards (gameId : Nat) (cards : List Card)
    (events : List GameCardEvent) (opIdx : Nat) (failAt : Option Nat) :
    Except String (List GameCardEvent) :=
  match cards with
  | [] => .ok events
  | c :: rest =>
      if failAt = some opIdx then .error "PersistenceFailure"
      else insertInitialCards gameId rest (events ++ [initialEvent gameId c])
        (opIdx + 1) failAt

/-- dao-games.mjs `startGame(db, userId, initialCards)`: inside a
transaction, insert the game header (write 0) and one `initial` event
per card (writes 1..n); on any fault the transaction is rolled back, so
the returned state is the pre-operation state and the error is
rethrown. -/
def startGame (db : DB) (userId : Nat) (initialCards : List Card)
    (now : Nat) (failAt : Option Nat) : Except String Nat × DB :=
  if failAt = some 0 then (.error "PersistenceFailure", db)
  else
    let gameId := db.nextGameId
    let header : Game :=
      { id := gameId, user_id := userId, start_time := now,
        end_time := none, outcome := "", cards_collected := 0 }
    match insertInitialCards gameId initialCards db.game_cards 1 failAt with
    | .ok evs =>
        (.ok gameId,
         { db with games := db.games ++ [header], game_cards := evs,
                   nextGameId := gameId + 1 })
    | .error e => (.error e, db)

/-- dao-games.mjs `recordRoundOutcome`: append one event row. -/
def recordRoundOutcome (db : DB) (gameId cardId : Nat) (status : String)
    (roundNumber : Nat) (isCorrectGuess : Option Bool) (now : Nat) : DB :=
  { db with game_cards := db.game_cards ++
      [{ game_id := gameId, card_id := cardId, status := status,
         round := some roundNumber, guess_time := some now,
         is_correct_guess := isCorrectGuess }] }

/-- dao-games.mjs `endGame`: unconditional UPDATE of the game header. -/
def endGame (db : DB) (gameId : Nat) (outcome : String)
    (cardsCollected : Nat) (now : Nat) : DB :=
  { db with games := db.games.map (fun g =>
      if g.id == gameId then
        { g with end_time := some now, outcome := outcome,
                 cards_collected := cardsCollected }
      else g) }

/-- Result row of the `game_cards JOIN cards` query of `getGameCards`. -/
structure GameCardDetail where
  id : Nat
  name : String
  image : String
  bad_luck_index : Int
  status : String
  round : Option Nat
  guess_time : Option Nat
  is_correct_guess : Option Bool
  deriving DecidableEq

/-- The inner join of `getGameCards` before its ORDER BY clause. -/
def joinGameCards (db : DB) (gameId : Nat) : List GameCardDetail :=
  (db.game_cards.filter (fun e => e.game_id == gameId)).filterMap (fun e =>
    (db.cards.find? (fun c => c.id == e.card_id)).map (fun c =>
      { id := c.id, name := c.name, image := c.image,
        bad_luck_index := c.bad_luck_index, status := e.status,
        round := e.round, guess_time := e.guess_time,
        is_correct_guess := e.is_correct_guess }))

/-- dao-games.mjs `getGameCards`: join and `ORDER BY bad_luck_index`. -/
def getGameCards (db : DB) (gameId : Nat) : List GameCardDetail :=
  orderBy (fun a b => decide (a.bad_luck_index ≤ b.bad_luck_index))
    (joinGameCards db gameId)

/-- A history entry: one game annotated with its joined event rows. -/
structure GameWithCards where
  game : Game
  gameCards : List GameCardDetail
  deriving DecidableEq

/-- dao-games.mjs `getGameHistory`: the user's games `ORDER BY
start_time DESC`, each annotated via `getGameCards`. -/
def getGameHistory (db : DB) (userId : Nat) : List GameWithCards :=
  (orderBy (fun a b => decide (b.start_time ≤ a.start_time))
      (db.games.filter (fun g => g.user_id == userId))).map
    (fun g => { game := g, gameCards := getGameCards db g.id })

/-- dao-games.mjs `getWonCardsCount`: COUNT of `won`-status rows. -/
def getWonCardsCount (db : DB) (gameId : Nat) : Nat :=
  (db.game_cards.filter (fun e =>
    e.game_id == gameId && e.status == "won")).length

/-- dao-games.mjs `getLostRoundsCount`: COUNT of rows with
`status = 'lost' OR (status = 'proposed' AND is_correct_guess = 0)`. -/
def getLostRoundsCount (db : DB) (gameId : Nat) : Nat :=
  (db.game_cards.filter (fun e =>
    e.game_id == gameId &&
      (e.status == "lost" ||
        (e.status == "proposed" && e.is_correct_guess == some false)))).length

/-- dao-games.mjs `getInvolvedCardIds`: every card id with an event row
for the game, whatever the status. -/
def getInvolvedCardIds (db : DB) (gameId : Nat) : List Nat :=
  (db.game_cards.filter (fun e => e.game_id == gameId)).map
    (fun e => e.card_id)

/-- Client-supplied hand entry: `{ id, bad_luck_index }`. -/
structure HandCard where
  id : Nat
  bad_luck_index : Int
  deriving DecidableEq

/-- The effective insertion position of JavaScript
`splice(start, 0, item)`: negative positions count from the end and are
clamped at 0, positions past the end are clamped to the length. -/
def spliceStart (len : Nat) (start : Int) : Nat :=
  if start < 0 then ((len : Int) + start).toNat else min start.toNat len

/-- `hand.splice(start, 0, c)` as used to build the trial hand. -/
def spliceInsert (hand : List HandCard) (start : Int) (c : HandCard) :
    List HandCard :=
  let i := spliceStart hand.length start
  hand.take i ++ c :: hand.drop i

/-- The judging loop of the registered-game guess route: scan adjacent
pairs, fail on the first pair with `left.bad_luck_index >
right.bad_luck_index`. -/
def handIsSorted : List HandCard → Bool
  | a :: b :: rest =>
      if a.bad_luck_index > b.bad_luck_index then false
      else handIsSorted (b :: rest)
  | _ => true

/-- The judging loop of the demo guess route (textually the same scan,
translated from its own site). -/
def demoHandIsSorted : List HandCard → Bool
  | a :: b :: rest =>
      if a.bad_luck_index > b.bad_luck_index then false
      else demoHandIsSorted (b :: rest)
  | _ => true

/-- Error responses of the route layer. -/
inductive RouteError where
  | badRequest (msg : String)
  | notFound (msg : String)
  deriving DecidableEq

/-- Body of the JSON response of `POST /api/games/:gameId/guess`. -/
structure GuessResponse where
  isCorrect : Bool
  badLuckIndex : Int
  wonCard : Option Card
  currentCards : List GameCardDetail
  gameOutcome : Option String
  cardsWonCount : Nat
  cardsLostCount : Nat
  deriving DecidableEq

/-- Route handler `POST /api/games/:gameId/guess` (routes.mjs).  The
`Option` inputs model the `isNaN` / `Array.isArray` validation; the
second component of the result is the database state after the call. -/
def guessRoute (db : DB) (gameId cardId : Option Nat)
    (playerHand : Option (List HandCard)) (placementIndex : Option Int)
    (roundNumber : Option Nat) (now : Nat) :
    Except RouteError GuessResponse × DB :=
  match gameId, cardId, playerHand, placementIndex, roundNumber with
  | some gid, some cid, some hand, some pIdx, some rNum =>
    match getCardById db cid with
    | none => (.error (.notFound "New card not found."), db)
    | some newCardDetails =>
      let tempHand := spliceInsert hand pIdx
        { id := newCardDetails.id,
          bad_luck_index := newCardDetails.bad_luck_index }
      let isCorrect := handIsSorted tempHand
      let status := if isCorrect then "won" else "lost"
      let db1 := recordRoundOutcome db gid cid status rNum (some isCorrect) now
      let currentCards := (getGameCards db1 gid).filter (fun c =>
        c.status == "initial" || c.status == "won")
      let cardsWonCount := getWonCardsCount db1 gid
      let cardsLostCount := getLostRoundsCount db1 gid
      if cardsWonCount ≥ 3 then
        (.ok { isCorrect := isCorrect,
               badLuckIndex := newCardDetails.bad_luck_index,
               wonCard := if isCorrect then some newCardDetails else none,
               currentCards := currentCards, gameOutcome := some "Won",
               cardsWonCount := cardsWonCount,
               cardsLostCount := cardsLostCount },
         endGame db1 gid "Won" currentCards.length now)
      else if cardsLostCount ≥ 3 then
        (.ok { isCorrect := isCorrect,
               badLuckIndex := newCardDetails.bad_luck_index,
               wonCard := if isCorrect then some newCardDetails else none,
               currentCards := currentCards, gameOutcome := some "Lost",
               cardsWonCount := cardsWonCount,
               cardsLostCount := cardsLostCount },
         endGame db1 gid "Lost" currentCards.length now)
      else
        (.ok { isCorrect := isCorrect,
               badLuckIndex := newCardDetails.bad_luck_index,
               wonCard := if isCorrect then some newCardDetails else none,
               currentCards := currentCards, gameOutcome := none,
               cardsWonCount := cardsWonCount,
               cardsLostCount := cardsLostCount },
         db1)
  | _, _, _, _, _ => (.error (.badRequest "Invalid input for guess."), db)

/-- Body of the JSON response of `POST /api/games/:gameId/lose-round`. -/
structure LoseRoundResponse where
  gameOutcome : Option String
  cardsLostCount : Nat
  deriving DecidableEq

/-- Route handler `POST /api/games/:gameId/lose-round` (routes.mjs):
record a `discarded` event with correctness flag false, then check the
lose threshold. -/
def loseRoundRoute (db : DB) (gameId cardId roundNumber : Option Nat)
    (now : Nat) : Except RouteError LoseRoundResponse × DB :=
  match gameId, cardId, roundNumber with
  | some gid, some cid, some rNum =>
    let db1 := recordRoundOutcome db gid cid "discarded" rNum (some false) now
    let cardsLostCount := getLostRoundsCount db1 gid
    if cardsLostCount ≥ 3 then
      let currentCardsCount := ((getGameCards db1 gid).filter (fun c =>
        c.status == "initial" || c.status == "won")).length
      (.ok { gameOutcome := some "Lost", cardsLostCount := cardsLostCount },
       endGame db1 gid "Lost" currentCardsCount now)
    else
      (.ok { gameOutcome := none, cardsLostCount := cardsLostCount }, db1)
  | _, _, _ => (.error (.badRequest "Invalid input for losing round."), db)

/-- Body of the JSON response of `GET /api/games/:gameId/next-round`:
only identifier, name and image of the drawn card. -/
structure NextRoundResponse where
  id : Nat
  name : String
  image : String
  deriving DecidableEq

/-- Tail of the next-round handler: `if (newCards.length === 0)`
answer 404, otherwise answer with `newCards[0]` stripped of its
bad_luck_index. -/
def drawResponse (newCards : List Card) : Except RouteError NextRoundResponse :=
  match newCards with
  | [] => .error (.notFound "No more unique cards available for this game.")
  | newCard :: _ =>
      .ok { id := newCard.id, name := newCard.name, image := newCard.image }

/-- Route handler `GET /api/games/:gameId/next-round` (routes.mjs):
draw one card excluding every involved card id; 404 when none is
left.  Read-only, so no state is returned. -/
def nextRoundRoute (db : DB) (shuffledCards : List Card)
    (gameId : Option Nat) : Except RouteError NextRoundResponse :=
  match gameId with
  | none => .error (.badRequest "Invalid game ID.")
  | some gid =>
      drawResponse (getRandomCards shuffledCards 1 (getInvolvedCardIds db gid))

/-- Body of the JSON response of `POST /api/demo-game/guess`. -/
structure DemoGuessResponse where
  isCorrect : Bool
  badLuckIndex : Int
  wonCard : Option Card
  deriving DecidableEq

/-- Route handler `POST /api/demo-game/guess` (routes.mjs): same splice
and scan as the registered guess route, no persistence at all. -/
def demoGuessRoute (db : DB) (initialCards : Option (List HandCard))
    (newCardId : Option Nat) (placementIndex : Option Int) :
    Except RouteError DemoGuessResponse :=
  match initialCards, newCardId, placementIndex with
  | some hand, some cid, some pIdx =>
    match getCardById db cid with
    | none => .error (.notFound "New card not found for demo game.")
    | some newCardDetails =>
      let tempHand := spliceInsert hand pIdx
        { id := newCardDetails.id,
          bad_luck_index := newCardDetails.bad_luck_index }
      let isCorrect := demoHandIsSorted tempHand
      .ok { isCorrect := isCorrect,
            badLuckIndex := newCardDetails.bad_luck_index,
            wonCard := if isCorrect then some newCardDetails else none }
  | _, _, _ => .error (.badRequest "Invalid input for demo guess.")

/-- Cards are visibly equal when they agree on everything the
next-round response may reveal: identifier, name and image.  Two
catalogs differing only in a bad_luck_index are pointwise related. -/
def sameVisible (a b : Card) : Prop :=
  a.id = b.id ∧ a.name = b.name ∧ a.image = b.image

/-- A seven-card catalog used for the concrete evaluations; the
bad_luck_index values of A, B, C, D follow the worked example of the
specification (1, 5, 9, 7). -/
def catalogSeven : List Card :=
  [⟨1, "A", "a", 1⟩, ⟨2, "B", "b", 5⟩, ⟨3, "C", "c", 9⟩,
   ⟨4, "D", "d", 7⟩, ⟨5, "E", "e", 20⟩, ⟨6, "F", "f", 30⟩,
   ⟨7, "G", "g", 40⟩]

/-- A freshly started in-progress game for user 1 holding the three
initial cards A, B, C. -/
def freshGameDB : DB :=
  { cards := catalogSeven,
    games := [⟨1, 1, 10, none, "", 0⟩],
    game_cards := [⟨1, 1, "initial", none, none, none⟩,
                   ⟨1, 2, "initial", none, none, none⟩,
                   ⟨1, 3, "initial", none, none, none⟩],
    nextGameId := 2 }

/-- A game already terminated as Won (three initial cards plus three
won rounds, outcome written at time 100). -/
def wonGameDB : DB :=
  { cards := catalogSeven,
    games := [⟨1, 1, 10, some 100, "Won", 6⟩],
    game_cards := [⟨1, 1, "initial", none, none, none⟩,
                   ⟨1, 2, "initial", none, none, none⟩,
                   ⟨1, 3, "initial", none, none, none⟩,
                   ⟨1, 4, "won", some 1, some 20, some true⟩,
                   ⟨1, 5, "won", some 2, some 30, some true⟩,
                   ⟨1, 6, "won", some 3, some 40, some true⟩],
    nextGameId := 2 }

/-- The six-card hand of `wonGameDB`, ordered by bad_luck_index. -/
def wonGameHand : List HandCard :=
  [⟨1, 1⟩, ⟨2, 5⟩, ⟨4, 7⟩, ⟨3, 9⟩, ⟨5, 20⟩, ⟨6, 30⟩]

/-- The catalog of `catalogSeven` with the bad_luck_index of card D
changed (7 becomes 999), so the two catalogs agree on everything except
that one hidden ranking value. -/
def catalogSevenAlt : List Card :=
  [⟨1, "A", "a", 1⟩, ⟨2, "B", "b", 5⟩, ⟨3, "C", "c", 9⟩,
   ⟨4, "D", "d", 999⟩, ⟨5, "E", "e", 20⟩, ⟨6, "F", "f", 30⟩,
   ⟨7, "G", "g", 40⟩]

/-- A game whose event log already involves every card of the catalog,
so that no next-round card remains. -/
def exhaustedDB : DB :=
  { cards := catalogSeven,
    games := [⟨1, 1, 10, none, "", 0⟩],
    game_cards := [⟨1, 1, "initial", none, none, none⟩,
                   ⟨1, 2, "initial", none, none, none⟩,
                   ⟨1, 3, "initial", none, none, none⟩,
                   ⟨1, 4, "won", some 1, some 20, some true⟩,
                   ⟨1, 5, "lost", some 2, some 30, some false⟩,
                   ⟨1, 6, "discarded", some 3, some 40, some false⟩,
                   ⟨1, 7, "won", some 4, some 50, some true⟩],
    nextGameId := 2 }

lemma orderedInsert_perm (le : α → α → Bool) (a : α) (l : List α) :
    (orderedInsert le a l).Perm (a :: l) := by
  induction l with
  | nil => simp [orderedInsert]
  | cons b t ih =>
      unfold orderedInsert
      by_cases h : le a b = true
      · simp [h]
      · simp only [h, if_neg, Bool.false_eq_true, not_false_eq_true, if_false]
        exact (ih.cons b).trans (List.Perm.swap a b t)

lemma orderBy_perm (le : α → α → Bool) (l : List α) :
    (orderBy le l).Perm l := by
  induction l with
  | nil => simp [orderBy]
  | cons a t ih =>
      exact (orderedInsert_perm le a (orderBy le t)).trans (ih.cons a)

lemma pairwise_orderedInsert (le : α → α → Bool)
    (htrans : ∀ a b c, le a b = true → le b c = true → le a c = true)
    (htot : ∀ a b, le a b = true ∨ le b a = true) (a : α) (l : List α)
    (hl : l.Pairwise (fun x y => le x y = true)) :
    (orderedInsert le a l).Pairwise (fun x y => le x y = true) := by
  induction l with
  | nil => simp [orderedInsert]
  | cons b t ih =>
      rcases List.pairwise_cons.mp hl with ⟨hb, ht⟩
      unfold orderedInsert
      by_cases h : le a b = true
      · simp only [h, if_true]
        refine List.pairwise_cons.mpr ⟨?_, hl⟩
        intro x hx
        rcases List.mem_cons.mp hx with rfl | hx'
        · exact h
        · exact htrans a b x h (hb x hx')
      · simp only [h, Bool.false_eq_true, if_false]
        refine List.pairwise_cons.mpr ⟨?_, ih ht⟩
        intro x hx
        rcases List.mem_cons.mp ((orderedInsert_perm le a t).mem_iff.mp hx) with
          hx' | hx'
        · rcases htot a b with hab | hba
          · exact absurd hab h
          · rw [hx']; exact hba
        · exact hb x hx'

lemma pairwise_orderBy (le : α → α → Bool)
    (htrans : ∀ a b c, le a b = true → le b c = true → le a c = true)
    (htot : ∀ a b, le a b = true ∨ le b a = true) (l : List α) :
    (orderBy le l).Pairwise (fun x y => le x y = true) := by
  induction l with
  | nil => simp [orderBy]
  | cons a t ih => exact pairwise_orderedInsert le htrans htot a (orderBy le t) ih

lemma handIsSorted_iff_chain : ∀ l : List HandCard,
    handIsSorted l = true ↔
      List.Chain' (fun a b => a.bad_luck_index ≤ b.bad_luck_index) l
  | [] => by simp [handIsSorted]
  | [a] => by simp [handIsSorted]
  | a :: b :: t => by
      rw [handIsSorted, List.chain'_cons]
      by_cases h : a.bad_luck_index > b.bad_luck_index
      · simp only [h, if_true, Bool.false_eq_true, false_iff]
        intro hc
        exact absurd hc.1 (not_le.mpr h)
      · simp only [h, if_false]
        rw [handIsSorted_iff_chain (b :: t)]
        simp [not_lt.mp h]

lemma demoHandIsSorted_eq : ∀ l : List HandCard,
    demoHandIsSorted l = handIsSorted l
  | [] => rfl
  | [_] => rfl
  | a :: b :: t => by
      rw [demoHandIsSorted, handIsSorted]
      by_cases h : a.bad_luck_index > b.bad_luck_index
      · simp [h]
      · simp only [h, if_false]
        exact demoHandIsSorted_eq (b :: t)

lemma insertInitialCards_spec (gameId : Nat) (cards : List Card) :
    ∀ (events : List GameCardEvent) (opIdx : Nat) (failAt : Option Nat),
      insertInitialCards gameId cards events opIdx failAt =
          .ok (events ++ cards.map (initialEvent gameId)) ∨
        insertInitialCards gameId cards events opIdx failAt =
          .error "PersistenceFailure" := by
  induction cards with
  | nil => intro events opIdx failAt; left; simp [insertInitialCards]
  | cons c rest ih =>
      intro events opIdx failAt
      rw [insertInitialCards]
      by_cases h : failAt = some opIdx
      · right; simp [h]
      · simp only [h, if_false]
        rcases ih (events ++ [initialEvent gameId c]) (opIdx + 1) failAt with
          hok | herr
        · left; rw [hok]; simp
        · right; exact herr

lemma forall2_sameVisible_filter (ex : List Nat) {s1 s2 : List Card}
    (h : List.Forall₂ sameVisible s1 s2) :
    List.Forall₂ sameVisible (s1.filter (fun c => !(ex.contains c.id)))
      (s2.filter (fun c => !(ex.contains c.id))) := by
  induction h with
  | nil => exact List.Forall₂.nil
  | @cons a b t1 t2 hab ht ih =>
      have hid : a.id = b.id := hab.1
      simp only [List.filter_cons, hid]
      by_cases hp : (!(ex.contains b.id)) = true
      · simp only [hp, if_true]
        exact List.Forall₂.cons hab ih
      · simp only [hp, if_false]
        exact ih

lemma drawResponse_congr {l1 l2 : List Card}
    (h : List.Forall₂ sameVisible l1 l2) :
    drawResponse l1 = drawResponse l2 := by
  cases h with
  | nil => rfl
  | cons hab ht =>
      obtain ⟨hid, hname, himg⟩ := hab
      simp [drawResponse, hid, hname, himg]

/-- C1: the lost-count query used for the lose-condition counts rows
with status `lost` and legacy rows with status `proposed` whose
correctness flag is false, but NOT rows with status `discarded`;
resolving a timeout records a `discarded` row yet leaves the count
returned by getLostRoundsCount unchanged at 0, refuting the claim that
each timeout resolution increases the lost-count by one. -/
theorem C1_timeout_does_not_increase_lost_count :
    (loseRoundRoute freshGameDB (some 1) (some 4) (some 1) 100).2.game_cards =
        freshGameDB.game_cards ++
          [⟨1, 4, "discarded", some 1, some 100, some false⟩] ∧
      getLostRoundsCount
          (loseRoundRoute freshGameDB (some 1) (some 4) (some 1) 100).2 1 =
        getLostRoundsCount freshGameDB 1 ∧
      getLostRoundsCount freshGameDB 1 = 0 ∧
      Except.map (fun r => r.cardsLostCount)
          (loseRoundRoute freshGameDB (some 1) (some 4) (some 1) 100).1 =
        .ok 0 :=
  ⟨by decide, by decide, by decide, rfl⟩

/-- C2: three correct guesses do transition a fresh game to Won and
three wrong guesses to Lost (Won checked first), but three timeout
resolutions leave the game in progress with lost-count 0 because
`discarded` rows are not counted, refuting the claim for the timeout
half of the lose condition. -/
theorem C2_three_timeouts_do_not_lose :
    (Except.map (fun r => r.gameOutcome)
        (guessRoute
          (guessRoute
            (guessRoute freshGameDB (some 1) (some 4)
              (some [⟨1, 1⟩, ⟨2, 5⟩, ⟨3, 9⟩]) (some 2) (some 1) 100).2
            (some 1) (some 5) (some [⟨1, 1⟩, ⟨2, 5⟩, ⟨4, 7⟩, ⟨3, 9⟩])
            (some 4) (some 2) 101).2
          (some 1) (some 6)
          (some [⟨1, 1⟩, ⟨2, 5⟩, ⟨4, 7⟩, ⟨3, 9⟩, ⟨5, 20⟩]) (some 5) (some 3)
          102).1 = .ok (some "Won")) ∧
      (Except.map (fun r => r.gameOutcome)
        (guessRoute
          (guessRoute
            (guessRoute freshGameDB (some 1) (some 4)
              (some [⟨1, 1⟩, ⟨2, 5⟩, ⟨3, 9⟩]) (some 0) (some 1) 100).2
            (some 1) (some 5) (some [⟨1, 1⟩, ⟨2, 5⟩, ⟨3, 9⟩]) (some 0)
            (some 2) 101).2
          (some 1) (some 6) (some [⟨1, 1⟩, ⟨2, 5⟩, ⟨3, 9⟩]) (some 0) (some 3)
          102).1 = .ok (some "Lost")) ∧
      (Except.map (fun r => r.gameOutcome)
        (loseRoundRoute
          (loseRoundRoute
            (loseRoundRoute freshGameDB (some 1) (some 4) (some 1) 100).2
            (some 1) (some 5) (some 2) 101).2
          (some 1) (some 6) (some 3) 102).1 = .ok none) ∧
      (loseRoundRoute
          (loseRoundRoute
            (loseRoundRoute freshGameDB (some 1) (some 4) (some 1) 100).2
            (some 1) (some 5) (some 2) 101).2
          (some 1) (some 6) (some 3) 102).2.games.map (fun g => g.outcome) =
        [""] :=
  ⟨rfl, rfl, rfl, by decide⟩

/-- C6: Won and Lost are not enforced as terminal states: a further
guess on a game already ended as Won is accepted and re-runs endGame,
overwriting the end timestamp (100 becomes 200), refuting the claim
that no subsequent resolution changes a terminal game again. -/
theorem C6_terminal_state_overwritten :
    wonGameDB.games.map (fun g => g.end_time) = [some 100] ∧
      (guessRoute wonGameDB (some 1) (some 7) (some wonGameHand) (some 0)
          (some 4) 200).2.games.map (fun g => g.end_time) = [some 200] ∧
      Except.map (fun r => r.gameOutcome)
          (guessRoute wonGameDB (some 1) (some 7) (some wonGameHand) (some 0)
            (some 4) 200).1 = .ok (some "Won") :=
  ⟨by decide, by decide, rfl⟩

/-- C7 counterexample: on the existing in-progress game 1 of
`freshGameDB`, a guess for the uninvolved card 7 whose placement index
10 lies outside the valid insertion positions 0..3 of the three-card
hand is not rejected: the splice clamps the index to the end of the
hand, the guess is judged correct there, and a GameCardEvent row is
recorded, refuting the claim that such a guess fails without recording
an event. -/
theorem C7_counterexample :
    Except.map (fun r => r.isCorrect)
        (guessRoute freshGameDB (some 1) (some 7)
          (some [⟨1, 1⟩, ⟨2, 5⟩, ⟨3, 9⟩]) (some 10) (some 1) 50).1 =
        .ok true ∧
      (guessRoute freshGameDB (some 1) (some 7)
          (some [⟨1, 1⟩, ⟨2, 5⟩, ⟨3, 9⟩]) (some 10) (some 1) 50).2.game_cards =
        freshGameDB.game_cards ++ [⟨1, 7, "won", some 1, some 50, some true⟩] ∧
      ¬((10 : Int) ≤
        ([⟨1, 1⟩, ⟨2, 5⟩, ⟨3, 9⟩] : List HandCard).length) :=
  ⟨rfl, by decide, by decide⟩

/-- C7 amended: malformed inputs — a NaN gameId, cardId, placementIndex
or roundNumber, or a non-array hand — are rejected before any
persistence call, leaving the database unchanged; an out-of-range
numeric placement index, however, is clamped by the splice rather than
rejected. -/
theorem C7_amended_validation_before_persistence (db : DB)
    (gameId cardId : Option Nat) (playerHand : Option (List HandCard))
    (placementIndex : Option Int) (roundNumber : Option Nat) (now : Nat)
    (h : gameId = none ∨ cardId = none ∨ playerHand = none ∨
      placementIndex = none ∨ roundNumber = none) :
    (guessRoute db gameId cardId playerHand placementIndex roundNumber now).1 =
        .error (.badRequest "Invalid input for guess.") ∧
      (guessRoute db gameId cardId playerHand placementIndex roundNumber
        now).2 = db := by
  cases gameId <;> cases cardId <;> cases playerHand <;>
    cases placementIndex <;> cases roundNumber <;>
    simp [guessRoute] at h ⊢

/-- Witness for the amended C7 theorem at a concrete malformed input
(NaN game id), on the consistent state `freshGameDB`. -/
theorem C7_amended_witness :
    (guessRoute freshGameDB none (some 7) (some [⟨1, 1⟩, ⟨2, 5⟩, ⟨3, 9⟩])
          (some 0) (some 1) 50).1 =
        .error (.badRequest "Invalid input for guess.") ∧
      (guessRoute freshGameDB none (some 7) (some [⟨1, 1⟩, ⟨2, 5⟩, ⟨3, 9⟩])
        (some 0) (some 1) 50).2 = freshGameDB :=
  C7_amended_validation_before_persistence freshGameDB none (some 7)
    (some [⟨1, 1⟩, ⟨2, 5⟩, ⟨3, 9⟩]) (some 0) (some 1) 50 (Or.inl rfl)

/-- C8 counterexample: in the worked example (hand A=1, B=5, C=9, new
card D=7 placed at index 2) the guess route returns a won-count of 1,
not 4 as the claim states. -/
theorem C8_counterexample :
    Except.map (fun r => r.cardsWonCount)
        (guessRoute freshGameDB (some 1) (some 4)
          (some [⟨1, 1⟩, ⟨2, 5⟩, ⟨3, 9⟩]) (some 2) (some 1) 50).1 = .ok 1 ∧
      (1 : Nat) ≠ 4 :=
  ⟨rfl, by decide⟩

/-- C8 amended: in the worked example the trial sequence of indices is
the non-decreasing [1, 5, 7, 9], the guess is judged correct, the
returned hand has size 4, and the returned won-count is 1 (only
`won`-status events are counted; the three initial cards are not). -/
theorem C8_worked_example :
    ((spliceInsert [⟨1, 1⟩, ⟨2, 5⟩, ⟨3, 9⟩] 2 ⟨4, 7⟩).map
        (fun c => c.bad_luck_index) = [1, 5, 7, 9]) ∧
      handIsSorted (spliceInsert [⟨1, 1⟩, ⟨2, 5⟩, ⟨3, 9⟩] 2 ⟨4, 7⟩) = true ∧
      Except.map (fun r => (r.isCorrect, r.currentCards.length, r.cardsWonCount))
          (guessRoute freshGameDB (some 1) (some 4)
            (some [⟨1, 1⟩, ⟨2, 5⟩, ⟨3, 9⟩]) (some 2) (some 1) 50).1 =
        .ok (true, 4, 1) :=
  ⟨by decide, by decide, rfl⟩

/-- C3: the round judge is a pure decision: with the authoritative
bad_luck_index of the fetched card inserted at the proposed position,
the registered guess route judges the guess correct exactly when every
adjacent pair of the trial sequence is non-decreasing by
bad_luck_index, and the demo guess route applies the identical
decision on the same inputs. -/
theorem C3_judge_correct_iff_nondecreasing (db : DB) (gameId cardId : Nat)
    (hand : List HandCard) (pIdx : Int) (rNum : Nat) (now : Nat) (card : Card)
    (hcard : getCardById db cardId = some card) :
    Except.map (fun r => r.isCorrect)
        (guessRoute db (some gameId) (some cardId) (some hand) (some pIdx)
          (some rNum) now).1 =
        Except.map (fun r => r.isCorrect)
          (demoGuessRoute db (some hand) (some cardId) (some pIdx)) ∧
      Except.map (fun r => r.isCorrect)
          (guessRoute db (some gameId) (some cardId) (some hand) (some pIdx)
            (some rNum) now).1 =
        .ok (handIsSorted
          (spliceInsert hand pIdx ⟨card.id, card.bad_luck_index⟩)) ∧
      (handIsSorted (spliceInsert hand pIdx ⟨card.id, card.bad_luck_index⟩) =
          true ↔
        List.Chain' (fun a b => a.bad_luck_index ≤ b.bad_luck_index)
          (spliceInsert hand pIdx ⟨card.id, card.bad_luck_index⟩)) := by
  refine ⟨?_, ?_, handIsSorted_iff_chain _⟩
  · simp only [guessRoute, demoGuessRoute, hcard]
    repeat' split
    all_goals simp [Except.map, demoHandIsSorted_eq]
  · simp only [guessRoute, hcard]
    repeat' split
    all_goals rfl

/-- Witness for C3 at the worked example: card D (authoritative index
7) placed at position 2 in the hand A, B, C. -/
theorem C3_judge_witness :
    Except.map (fun r => r.isCorrect)
        (guessRoute freshGameDB (some 1) (some 4)
          (some [⟨1, 1⟩, ⟨2, 5⟩, ⟨3, 9⟩]) (some 2) (some 1) 50).1 =
        Except.map (fun r => r.isCorrect)
          (demoGuessRoute freshGameDB (some [⟨1, 1⟩, ⟨2, 5⟩, ⟨3, 9⟩]) (some 4)
            (some 2)) ∧
      Except.map (fun r => r.isCorrect)
          (guessRoute freshGameDB (some 1) (some 4)
            (some [⟨1, 1⟩, ⟨2, 5⟩, ⟨3, 9⟩]) (some 2) (some 1) 50).1 =
        .ok (handIsSorted
          (spliceInsert [⟨1, 1⟩, ⟨2, 5⟩, ⟨3, 9⟩] 2
            ⟨(⟨4, "D", "d", 7⟩ : Card).id,
              (⟨4, "D", "d", 7⟩ : Card).bad_luck_index⟩)) ∧
      (handIsSorted
          (spliceInsert [⟨1, 1⟩, ⟨2, 5⟩, ⟨3, 9⟩] 2
            ⟨(⟨4, "D", "d", 7⟩ : Card).id,
              (⟨4, "D", "d", 7⟩ : Card).bad_luck_index⟩) = true ↔
        List.Chain' (fun a b => a.bad_luck_index ≤ b.bad_luck_index)
          (spliceInsert [⟨1, 1⟩, ⟨2, 5⟩, ⟨3, 9⟩] 2
            ⟨(⟨4, "D", "d", 7⟩ : Card).id,
              (⟨4, "D", "d", 7⟩ : Card).bad_luck_index⟩)) :=
  C3_judge_correct_iff_nondecreasing freshGameDB 1 4 [⟨1, 1⟩, ⟨2, 5⟩, ⟨3, 9⟩]
    2 1 50 ⟨4, "D", "d", 7⟩ rfl

/-- C4: startGame writes the game header and its three initial event
rows atomically: either the call succeeds and the post-state is the
pre-state extended with exactly the header row and the three `initial`
events, or some write fails, the whole transaction is rolled back so
the post-state equals the pre-state, and the error is propagated. -/
theorem C4_startGame_atomic (db : DB) (userId : Nat)
    (initialCards : List Card) (now : Nat) (failAt : Option Nat)
    (hlen : initialCards.length = 3) :
    ((startGame db userId initialCards now failAt).1 = .ok db.nextGameId ∧
        (startGame db userId initialCards now failAt).2 =
          { db with
              games := db.games ++
                [{ id := db.nextGameId, user_id := userId, start_time := now,
                   end_time := none, outcome := "", cards_collected := 0 }],
              game_cards := db.game_cards ++
                initialCards.map (initialEvent db.nextGameId),
              nextGameId := db.nextGameId + 1 } ∧
        (initialCards.map (initialEvent db.nextGameId)).length = 3) ∨
      ((startGame db userId initialCards now failAt).1 =
          .error "PersistenceFailure" ∧
        (startGame db userId initialCards now failAt).2 = db) := by
  unfold startGame
  by_cases h0 : failAt = some 0
  · right
    simp [h0]
  · rcases insertInitialCards_spec db.nextGameId initialCards db.game_cards 1
        failAt with hok | herr
    · left
      simp only [h0, if_false, hok]
      simp [hlen]
    · right
      simp only [h0, if_false, herr]
      simp

/-- Witness for C4 at a concrete input: three cards with the fault
oracle hitting the second event insert, so the header is rolled back. -/
theorem C4_startGame_atomic_witness :
    ((startGame freshGameDB 1 (catalogSeven.take 3) 5 (some 2)).1 =
          .ok freshGameDB.nextGameId ∧
        (startGame freshGameDB 1 (catalogSeven.take 3) 5 (some 2)).2 =
          { freshGameDB with
              games := freshGameDB.games ++
                [{ id := freshGameDB.nextGameId, user_id := 1, start_time := 5,
                   end_time := none, outcome := "", cards_collected := 0 }],
              game_cards := freshGameDB.game_cards ++
                (catalogSeven.take 3).map (initialEvent freshGameDB.nextGameId),
              nextGameId := freshGameDB.nextGameId + 1 } ∧
        ((catalogSeven.take 3).map (initialEvent freshGameDB.nextGameId)).length =
          3) ∨
      ((startGame freshGameDB 1 (catalogSeven.take 3) 5 (some 2)).1 =
          .error "PersistenceFailure" ∧
        (startGame freshGameDB 1 (catalogSeven.take 3) 5 (some 2)).2 =
          freshGameDB) :=
  C4_startGame_atomic freshGameDB 1 (catalogSeven.take 3) 5 (some 2) rfl

/-- C5: the next-round draw never returns a card already involved in
the game: any successful response carries an identifier outside the
involved set, and when every catalog card is involved the route fails
with the no-cards-remaining error. -/
theorem C5_nextRound_excludes_involved (db : DB) (shuffledCards : List Card)
    (gameId : Nat) (hperm : shuffledCards.Perm db.cards) :
    (∀ resp, nextRoundRoute db shuffledCards (some gameId) = .ok resp →
        resp.id ∉ getInvolvedCardIds db gameId) ∧
      ((∀ c ∈ db.cards, c.id ∈ getInvolvedCardIds db gameId) →
        nextRoundRoute db shuffledCards (some gameId) =
          .error (.notFound "No more unique cards available for this game.")) := by
  constructor
  · intro resp hresp
    by_cases hinv : (getInvolvedCardIds db gameId).isEmpty = true
    · rw [List.isEmpty_iff.mp hinv]
      exact List.not_mem_nil _
    · replace hresp :
          drawResponse ((shuffledCards.filter
            (fun c => !((getInvolvedCardIds db gameId).contains c.id))).take 1) =
            .ok resp := by
        rw [← hresp]
        show _ = drawResponse (getRandomCards shuffledCards 1
          (getInvolvedCardIds db gameId))
        unfold getRandomCards
        rw [if_neg hinv]
      cases hnc : (shuffledCards.filter
          (fun c => !((getInvolvedCardIds db gameId).contains c.id))).take 1 with
      | nil => rw [hnc] at hresp; exact absurd hresp (by simp [drawResponse])
      | cons c rest =>
          rw [hnc] at hresp
          have hc : c ∈ shuffledCards.filter
              (fun c => !((getInvolvedCardIds db gameId).contains c.id)) :=
            List.mem_of_mem_take (hnc ▸ List.mem_cons_self c rest)
          have hp := List.of_mem_filter hc
          simp only [drawResponse] at hresp
          injection hresp with h
          rw [← h]
          simpa using hp
  · intro hall
    show drawResponse (getRandomCards shuffledCards 1
      (getInvolvedCardIds db gameId)) = _
    unfold getRandomCards
    by_cases hinv : (getInvolvedCardIds db gameId).isEmpty = true
    · have hnil : db.cards = [] := by
        cases hcs : db.cards with
        | nil => rfl
        | cons c t =>
            have := hall c (by rw [hcs]; exact List.mem_cons_self c t)
            rw [List.isEmpty_iff.mp hinv] at this
            exact absurd this (List.not_mem_nil _)
      have hs : shuffledCards = [] := List.Perm.eq_nil (hnil ▸ hperm)
      rw [if_pos hinv, hs]
      rfl
    · have hfe : (shuffledCards.filter
          (fun c => !((getInvolvedCardIds db gameId).contains c.id))) = [] := by
        rw [List.filter_eq_nil_iff]
        intro c hc
        have := hall c (hperm.subset hc)
        simp [this]
      rw [if_neg hinv, hfe]
      rfl

/-- Witness for C5: in `freshGameDB` (cards 1, 2, 3 involved) the next
draw is card 4, which is not involved; in `exhaustedDB` every catalog
card is involved and the route answers the no-cards-remaining error. -/
theorem C5_nextRound_witness :
    ((⟨4, "D", "d"⟩ : NextRoundResponse).id ∉
        getInvolvedCardIds freshGameDB 1) ∧
      nextRoundRoute exhaustedDB catalogSeven (some 1) =
        .error (.notFound "No more unique cards available for this game.") :=
  ⟨(C5_nextRound_excludes_involved freshGameDB catalogSeven 1
      (List.Perm.refl _)).1 ⟨4, "D", "d"⟩ rfl,
   (C5_nextRound_excludes_involved exhaustedDB catalogSeven 1
      (List.Perm.refl _)).2 (by decide)⟩

/-- C9: the next-round response reveals only identifier, name and
image: for any two catalog orderings that agree pointwise on those
visible fields (so they may differ in any bad_luck_index, in
particular the drawn card's), the route returns the identical
response. -/
theorem C9_nextRound_hides_index (db : DB) (s1 s2 : List Card)
    (gameId : Option Nat) (h : List.Forall₂ sameVisible s1 s2) :
    nextRoundRoute db s1 gameId = nextRoundRoute db s2 gameId := by
  cases gameId with
  | none => rfl
  | some gid =>
      unfold nextRoundRoute getRandomCards
      by_cases hinv : (getInvolvedCardIds db gid).isEmpty = true
      · simp only [hinv, if_true]
        exact drawResponse_congr (List.forall₂_take 1 h)
      · simp only [hinv, if_false]
        exact drawResponse_congr
          (List.forall₂_take 1 (forall2_sameVisible_filter _ h))

/-- Witness for C9: the two catalogs differ exactly in the
bad_luck_index of card D, the card drawn for game 1 of `freshGameDB`,
yet the responses coincide. -/
theorem C9_nextRound_witness :
    nextRoundRoute freshGameDB catalogSeven (some 1) =
      nextRoundRoute freshGameDB catalogSevenAlt (some 1) :=
  C9_nextRound_hides_index freshGameDB catalogSeven catalogSevenAlt (some 1)
    (by
      refine List.Forall₂.cons ⟨rfl, rfl, rfl⟩ ?_
      refine List.Forall₂.cons ⟨rfl, rfl, rfl⟩ ?_
      refine List.Forall₂.cons ⟨rfl, rfl, rfl⟩ ?_
      refine List.Forall₂.cons ⟨rfl, rfl, rfl⟩ ?_
      refine List.Forall₂.cons ⟨rfl, rfl, rfl⟩ ?_
      refine List.Forall₂.cons ⟨rfl, rfl, rfl⟩ ?_
      refine List.Forall₂.cons ⟨rfl, rfl, rfl⟩ ?_
      exact List.Forall₂.nil)

/-- C10: getGameHistory returns exactly the user's games, ordered by
start time descending, and each entry is annotated with its full
joined event list ordered by bad_luck_index ascending. -/
theorem C10_history_ordered (db : DB) (userId : Nat) :
    ((getGameHistory db userId).map (fun x => x.game)).Perm
        (db.games.filter (fun g => g.user_id == userId)) ∧
      List.Chain' (fun x y => y.game.start_time ≤ x.game.start_time)
        (getGameHistory db userId) ∧
      (getGameHistory db userId).Forall (fun x =>
        x.gameCards = getGameCards db x.game.id ∧
        x.gameCards.Perm (joinGameCards db x.game.id) ∧
        List.Chain' (fun a b => a.bad_luck_index ≤ b.bad_luck_index)
          x.gameCards) := by
  refine ⟨?_, ?_, ?_⟩
  · have h1 : (getGameHistory db userId).map (fun x => x.game) =
        orderBy (fun a b => decide (b.start_time ≤ a.start_time))
          (db.games.filter (fun g => g.user_id == userId)) := by
      unfold getGameHistory
      rw [List.map_map]
      exact List.map_id _
    rw [h1]
    exact orderBy_perm _ _
  · unfold getGameHistory
    rw [List.chain'_map]
    have hp := pairwise_orderBy
      (fun a b : Game => decide (b.start_time ≤ a.start_time))
      (fun a b c hab hbc => decide_eq_true
        (le_trans (of_decide_eq_true hbc) (of_decide_eq_true hab)))
      (fun a b => by
        rcases le_total b.start_time a.start_time with h | h
        · exact Or.inl (decide_eq_true h)
        · exact Or.inr (decide_eq_true h))
      (db.games.filter (fun g => g.user_id == userId))
    exact (hp.imp (fun h => of_decide_eq_true h)).chain'
  · rw [List.forall_iff_forall_mem]
    intro x hx
    unfold getGameHistory at hx
    rcases List.mem_map.mp hx with ⟨g, hg, rfl⟩
    refine ⟨rfl, ?_, ?_⟩
    · exact orderBy_perm _ _
    · have hp := pairwise_orderBy
        (fun a b : GameCardDetail =>
          decide (a.bad_luck_index ≤ b.bad_luck_index))
        (fun a b c hab hbc => decide_eq_true
          (le_trans (of_decide_eq_true hab) (of_decide_eq_true hbc)))
        (fun a b => by
          rcases le_total a.bad_luck_index b.bad_luck_index with h | h
          · exact Or.inl (decide_eq_true h)
          · exact Or.inr (decide_eq_true h))
        (joinGameCards db g.id)
      exact (hp.imp (fun h => of_decide_eq_true h)).chain'

end StuffGame
